import Mathlib

/-!
Shallow embedding of `bevy_rain_glare` (`src/src/lib.rs`).

Scalar `f32` values are modelled as rationals (`ℚ`); the claims settled here
concern field selection, ordering, control flow and exact algebraic identities,
none of which depend on floating-point rounding.  `f32::powf` applied to a
nonnegative base with the literal exponent `2.0` is squaring, and is embedded
as `^ 2`.  Engine state (ECS queries, GPU resources, the render-pipeline cache)
is embedded as explicit records and lists; `HashMap` lookups become association
list lookups.
-/

namespace RainGlare

/-- `bevy::math::Vec2`, components as rationals. -/
structure Vec2 where
  x : ℚ
  y : ℚ
deriving DecidableEq

/-- `bevy::math::Vec3`, components as rationals. -/
structure Vec3 where
  x : ℚ
  y : ℚ
  z : ℚ
deriving DecidableEq

/-- `Vec3::dot`. -/
def Vec3.dot (a b : Vec3) : ℚ :=
  a.x * b.x + a.y * b.y + a.z * b.z

/-- `Vec3::Y`, the fixed world-up axis used by `advance_rain_time`. -/
def Vec3.worldY : Vec3 := ⟨0, 1, 0⟩

/-- `forward` is a unit vector (the camera forward direction has length 1). -/
def Vec3.isUnit (a : Vec3) : Prop :=
  a.x ^ 2 + a.y ^ 2 + a.z ^ 2 = 1

/-- Rust `f32::clamp(lo, hi)` for `lo ≤ hi`: below `lo` gives `lo`, above `hi`
gives `hi`, otherwise the value itself. -/
def fclamp (x lo hi : ℚ) : ℚ :=
  min (max x lo) hi

/-- `RainGlareSettings` (`src/src/lib.rs` lines 41-63): the per-camera
effect-parameter component, 13 scalar-equivalent fields with `wind` a `Vec2`. -/
structure RainGlareSettings where
  intensity : ℚ
  threshold : ℚ
  streak_length_px : ℚ
  rain_density : ℚ
  wind : Vec2
  speed : ℚ
  time : ℚ
  pattern_scale : ℚ
  mask_thickness_px : ℚ
  snap_to_pixel : ℚ
  tail_quant_steps : ℚ
  view_angle_factor : ℚ
deriving DecidableEq

/-- `impl Default for RainGlareSettings` (`src/src/lib.rs` lines 65-84). -/
def RainGlareSettings.default : RainGlareSettings where
  intensity := 0.35
  threshold := 0.65
  streak_length_px := 96.0
  rain_density := 0.55
  wind := ⟨0.10, 1.0⟩
  speed := 1.2
  time := 0.0
  pattern_scale := 3.0
  mask_thickness_px := 0.75
  snap_to_pixel := 1.0
  tail_quant_steps := 8.0
  view_angle_factor := 1.0

/-- The per-entity body of `advance_rain_time` (`src/src/lib.rs` lines 278-297):
given the clock value `t = time.elapsed_seconds()` and the camera's world-space
forward direction, write `time` and `view_angle_factor`, leaving every other
field of the settings untouched.  `horizon.powf(2.0)` on the nonnegative
clamped base is squaring. -/
def advanceSettingsStep (t : ℚ) (forward : Vec3) (s : RainGlareSettings) :
    RainGlareSettings :=
  let world_up := Vec3.worldY
  let vertical := forward.dot world_up
  let horizon := fclamp (1 - |vertical|) 0 1
  let angle_factor := horizon ^ 2
  { s with time := t, view_angle_factor := angle_factor }

/-- One ECS entity as seen by `advance_rain_time`'s query
`Query<(&GlobalTransform, &mut RainGlareSettings), With<Camera3d>>`: the
transform is represented by the forward vector `GlobalTransform::forward()`
yields, and `hasCamera3d` records whether the `Camera3d` marker component is
present (the query filter). -/
structure CameraEntity where
  forward : Vec3
  settings : RainGlareSettings
  hasCamera3d : Bool
deriving DecidableEq

/-- The whole `advance_rain_time` system (`src/src/lib.rs` lines 272-298) over
a world of entities carrying `RainGlareSettings`: only entities matching the
`With<Camera3d>` filter are mutated. -/
def advance_rain_time (elapsed_seconds : ℚ) (entities : List CameraEntity) :
    List CameraEntity :=
  entities.map fun e =>
    if e.hasCamera3d then
      { e with settings := advanceSettingsStep elapsed_seconds e.forward e.settings }
    else e

/-- Iterating `advance_rain_time`'s per-entity body over consecutive frames of
one run for a fixed camera: frame `n` runs with clock value `elapsed n`. -/
def settingsAfterFrames (elapsed : ℕ → ℚ) (forward : Vec3)
    (s0 : RainGlareSettings) : ℕ → RainGlareSettings
  | 0 => s0
  | n + 1 => advanceSettingsStep (elapsed n) forward
      (settingsAfterFrames elapsed forward s0 n)

/-- The `wgpu` texture formats relevant to the plugin, plus representatives of
the unsupported rest of the format space.  `Rgba8UnormSrgb` is
`TextureFormat::bevy_default()`; `Rgba16Float` is
`ViewTarget::TEXTURE_FORMAT_HDR`. -/
inductive TextureFormat where
  | Rgba8UnormSrgb
  | Bgra8UnormSrgb
  | Rgba16Float
  | Rgba32Float
  | R8Unorm
  | Rg11b10Float
deriving DecidableEq

/-- `TextureFormat::bevy_default()`. -/
def TextureFormat.bevy_default : TextureFormat := .Rgba8UnormSrgb

/-- `ViewTarget::TEXTURE_FORMAT_HDR`. -/
def TEXTURE_FORMAT_HDR : TextureFormat := .Rgba16Float

/-- One entry of the bind-group layout built in `RainGlarePipeline::from_world`
(`src/src/lib.rs` lines 216-226). -/
inductive BindingLayoutEntry where
  | texture2dFloatFilterable
  | samplerFiltering
  | uniformBufferDynamic
deriving DecidableEq

/-- The fields of `RenderPipelineDescriptor` that `from_world` varies or that
the claims mention: the label, the single color target's format, and its
(absent) blend state. -/
structure RenderPipelineDescriptor where
  label : String
  targetFormat : TextureFormat
  blend : Option Unit
deriving DecidableEq

/-- Bevy's `PipelineCache`, reduced to what the plugin uses: the queue of
render-pipeline descriptors submitted via `queue_render_pipeline`.  A
`CachedRenderPipelineId` is the position in this queue. -/
structure PipelineCacheState where
  queued : List RenderPipelineDescriptor
deriving DecidableEq

/-- `PipelineCache::queue_render_pipeline`: appends the descriptor and returns
its id. -/
def PipelineCacheState.queue_render_pipeline (c : PipelineCacheState)
    (d : RenderPipelineDescriptor) : ℕ × PipelineCacheState :=
  (c.queued.length, ⟨c.queued ++ [d]⟩)

/-- `RainGlarePipeline` resource (`src/src/lib.rs` lines 199-204): the shared
bind-group layout, the sampler (opaque here), and the per-format map of cached
pipeline ids (`HashMap` embedded as an association list). -/
structure RainGlarePipeline where
  layout : List BindingLayoutEntry
  pipelines : List (TextureFormat × ℕ)
deriving DecidableEq

/-- Association list lookup, the embedding of `HashMap::get`. -/
def lookupFormat : List (TextureFormat × ℕ) → TextureFormat → Option ℕ
  | [], _ => none
  | (k, v) :: rest, f => if k = f then some v else lookupFormat rest f

/-- `RainGlarePipeline::pipeline_for_format` (`src/src/lib.rs` lines 207-209). -/
def RainGlarePipeline.pipeline_for_format (p : RainGlarePipeline)
    (format : TextureFormat) : Option ℕ :=
  lookupFormat p.pipelines format

/-- The fixed two-element format array iterated by `from_world`
(`src/src/lib.rs` lines 233-236). -/
def supportedFormats : List TextureFormat :=
  [TextureFormat.bevy_default, TEXTURE_FORMAT_HDR]

/-- `RainGlarePipeline::from_world` (`src/src/lib.rs` lines 212-265): build the
three-entry layout, then for each supported format queue one render pipeline
and record its id in the map.  Returns the resource and the updated pipeline
cache. -/
def RainGlarePipeline.from_world (cache : PipelineCacheState) :
    RainGlarePipeline × PipelineCacheState :=
  let layout := [BindingLayoutEntry.texture2dFloatFilterable,
    BindingLayoutEntry.samplerFiltering, BindingLayoutEntry.uniformBufferDynamic]
  let step := fun (acc : List (TextureFormat × ℕ) × PipelineCacheState)
      (format : TextureFormat) =>
    let r := acc.2.queue_render_pipeline ⟨"rain_glare_pipeline", format, none⟩
    (acc.1 ++ [(format, r.1)], r.2)
  let r := supportedFormats.foldl step ([], cache)
  (⟨layout, r.1⟩, r.2)

/-- Association list lookup on pipeline ids, the embedding of
`PipelineCache::get_render_pipeline` (realized pipelines only). -/
def lookupId : List (ℕ × ℕ) → ℕ → Option ℕ
  | [], _ => none
  | (k, v) :: rest, i => if k = i then some v else lookupId rest i

/-- The world state `RainGlareNode::run` reads: the `RainGlarePipeline`
resource, the set of pipeline ids the `PipelineCache` has realized (compiled)
mapped to handles, and the optional binding of the frame's
`ComponentUniforms<RainGlareSettings>` storage. -/
structure RenderWorld where
  pipeline : RainGlarePipeline
  realized : List (ℕ × ℕ)
  uniformBinding : Option ℕ
deriving DecidableEq

/-- `render_pass.draw(vertices, instances)` with vertex-buffer usage recorded. -/
structure DrawCall where
  firstVertex : ℕ
  vertexCount : ℕ
  firstInstance : ℕ
  instanceCount : ℕ
  usesVertexBuffer : Bool
deriving DecidableEq

/-- `bevy::render::render_graph::NodeRunError` (never constructed by this
node's code paths). -/
inductive NodeRunError where
  | slotError
deriving DecidableEq

/-- Observable outcome of one `RainGlareNode::run` execution: the returned
`Result` (`error = none` is `Ok(())`), the draw calls recorded into the pass,
whether `post_process_write()` was invoked (which flips the view's
source/destination), the dynamic-offset arrays passed to `set_bind_group`,
and any log output (the node contains no logging calls). -/
structure RunOutcome where
  error : Option NodeRunError
  draws : List DrawCall
  postProcessWritten : Bool
  boundDynamicOffsets : List (List ℕ)
  logged : List String
deriving DecidableEq

/-- The outcome of every early-`return Ok(())` path in `run`. -/
def skipOutcome : RunOutcome :=
  { error := none, draws := [], postProcessWritten := false,
    boundDynamicOffsets := [], logged := [] }

/-- The single full-screen draw `render_pass.draw(0..3, 0..1)` with no vertex
buffer bound. -/
def fullscreenDraw : DrawCall :=
  { firstVertex := 0, vertexCount := 3, firstInstance := 0, instanceCount := 1,
    usesVertexBuffer := false }

/-- `RainGlareNode::run` (`src/src/lib.rs` lines 143-196).  `view_format` is
`view_target.main_texture_format()`; `settings_index` is this view's
`DynamicUniformIndex<RainGlareSettings>` value from the view query. -/
def RainGlareNode.run (world : RenderWorld) (view_format : TextureFormat)
    (settings_index : ℕ) : RunOutcome :=
  match world.pipeline.pipeline_for_format view_format with
  | none => skipOutcome
  | some pipeline_id =>
    match lookupId world.realized pipeline_id with
    | none => skipOutcome
    | some _render_pipeline =>
      match world.uniformBinding with
      | none => skipOutcome
      | some _settings_binding =>
        { error := none
          draws := [fullscreenDraw]
          postProcessWritten := true
          boundDynamicOffsets := [[settings_index]]
          logged := [] }

/-- All three preconditions of the draw path of `run`, as a boolean. -/
def drawPreconditionsMet (world : RenderWorld) (view_format : TextureFormat) :
    Bool :=
  match world.pipeline.pipeline_for_format view_format with
  | none => false
  | some pipeline_id =>
    match lookupId world.realized pipeline_id with
    | none => false
    | some _ => world.uniformBinding.isSome

/-- Modelled from the spec: ParameterSync.  The per-frame copy of each
`RainGlareSettings` instance into render-side uniform storage is performed by
the engine's `UniformComponentPlugin`, whose source is not part of this
repository.  Per the spec it copies every instance into the frame's storage,
"assigning a dynamic offset unique to that instance within the frame"; offsets
are consecutive multiples of the GPU's uniform alignment stride. -/
def assignOffsets (stride : ℕ) : ℕ → List RainGlareSettings →
    List (RainGlareSettings × ℕ)
  | _, [] => []
  | i, s :: rest => (s, stride * i) :: assignOffsets stride (i + 1) rest

/-- Modelled from the spec: ParameterSync's frame snapshot, instance `i`
placed at dynamic offset `stride * i`. -/
def parameterSync (stride : ℕ) (instances : List RainGlareSettings) :
    List (RainGlareSettings × ℕ) :=
  assignOffsets stride 0 instances

/-- Reading the uniform slot at a given dynamic offset from a frame snapshot. -/
def readSlot : List (RainGlareSettings × ℕ) → ℕ → Option RainGlareSettings
  | [], _ => none
  | (s, off) :: rest, o => if off = o then some s else readSlot rest o

/-- Modelled from the spec: the uniform packing of `RainGlareSettings` derived
by `ShaderType` (the derive's generated code is not part of this repository).
Per the spec, the record packs as 13 scalar-equivalent 4-byte fields in the
declaration order of §3, `wind` occupying two consecutive fields; each 4-byte
scalar cell is modelled as one scalar value. -/
def packSettings (s : RainGlareSettings) : List ℚ :=
  [s.intensity, s.threshold, s.streak_length_px, s.rain_density,
   s.wind.x, s.wind.y, s.speed, s.time, s.pattern_scale,
   s.mask_thickness_px, s.snap_to_pixel, s.tail_quant_steps,
   s.view_angle_factor]

/-- Modelled from the spec: unpacking a 13-cell uniform record laid out as
`packSettings` produces it; any other shape is rejected. -/
def unpackSettings : List ℚ → Option RainGlareSettings
  | [a, b, c, d, wx, wy, e, f, g, h, i, j, k] =>
    some ⟨a, b, c, d, ⟨wx, wy⟩, e, f, g, h, i, j, k⟩
  | _ => none

/-! ## Theorems -/

/-- C9: The default-constructed `RainGlareSettings` record has exactly the
field values intensity=0.35, threshold=0.65, streak_length_px=96.0,
rain_density=0.55, wind=(0.10,1.0), speed=1.2, time=0.0, pattern_scale=3.0,
mask_thickness_px=0.75, snap_to_pixel=1.0, tail_quant_steps=8.0,
view_angle_factor=1.0. -/
theorem default_settings_values :
    RainGlareSettings.default.intensity = 0.35
    ∧ RainGlareSettings.default.threshold = 0.65
    ∧ RainGlareSettings.default.streak_length_px = 96.0
    ∧ RainGlareSettings.default.rain_density = 0.55
    ∧ RainGlareSettings.default.wind = ⟨0.10, 1.0⟩
    ∧ RainGlareSettings.default.speed = 1.2
    ∧ RainGlareSettings.default.time = 0.0
    ∧ RainGlareSettings.default.pattern_scale = 3.0
    ∧ RainGlareSettings.default.mask_thickness_px = 0.75
    ∧ RainGlareSettings.default.snap_to_pixel = 1.0
    ∧ RainGlareSettings.default.tail_quant_steps = 8.0
    ∧ RainGlareSettings.default.view_angle_factor = 1.0 :=
  ⟨rfl, rfl, rfl, rfl, rfl, rfl, rfl, rfl, rfl, rfl, rfl, rfl⟩

/-- C8: The packed uniform record is 13 scalar-equivalent cells in the exact
data-model order with `wind` occupying two consecutive cells, and packing any
`RainGlareSettings` record (in particular the default one) then unpacking it
yields the original field values exactly. -/
theorem pack_roundtrip :
    (∀ s : RainGlareSettings,
      (packSettings s).length = 13 ∧ unpackSettings (packSettings s) = some s)
    ∧ packSettings RainGlareSettings.default
        = [RainGlareSettings.default.intensity, RainGlareSettings.default.threshold,
           RainGlareSettings.default.streak_length_px, RainGlareSettings.default.rain_density,
           RainGlareSettings.default.wind.x, RainGlareSettings.default.wind.y,
           RainGlareSettings.default.speed, RainGlareSettings.default.time,
           RainGlareSettings.default.pattern_scale, RainGlareSettings.default.mask_thickness_px,
           RainGlareSettings.default.snap_to_pixel, RainGlareSettings.default.tail_quant_steps,
           RainGlareSettings.default.view_angle_factor]
    ∧ unpackSettings (packSettings RainGlareSettings.default)
        = some RainGlareSettings.default :=
  ⟨fun _ => ⟨rfl, rfl⟩, rfl, rfl⟩

/-- C1: For every camera transform processed by `advance_rain_time`, the
written `view_angle_factor` equals `clamp(1 - |dot(forward, world_up)|, 0, 1)`
squared; it is 0 when `forward` equals world-up exactly, 1 when `forward` is
orthogonal to world-up, and always lies in `[0, 1]`. -/
theorem view_angle_factor_formula (t : ℚ) (forward : Vec3)
    (s : RainGlareSettings) (hunit : forward.isUnit) :
    (advanceSettingsStep t forward s).view_angle_factor
      = fclamp (1 - |forward.dot Vec3.worldY|) 0 1 ^ 2
    ∧ 0 ≤ (advanceSettingsStep t forward s).view_angle_factor
    ∧ (advanceSettingsStep t forward s).view_angle_factor ≤ 1
    ∧ (forward = Vec3.worldY →
        (advanceSettingsStep t forward s).view_angle_factor = 0)
    ∧ (forward.dot Vec3.worldY = 0 →
        (advanceSettingsStep t forward s).view_angle_factor = 1) := by
  refine ⟨rfl, ?_, ?_, ?_, ?_⟩
  · exact sq_nonneg _
  · have h0 : (0 : ℚ) ≤ fclamp (1 - |forward.dot Vec3.worldY|) 0 1 :=
      le_min (le_max_right _ _) zero_le_one
    have h1 : fclamp (1 - |forward.dot Vec3.worldY|) 0 1 ≤ 1 := min_le_right _ _
    calc (advanceSettingsStep t forward s).view_angle_factor
        = fclamp (1 - |forward.dot Vec3.worldY|) 0 1 ^ 2 := rfl
      _ ≤ 1 := pow_le_one₀ h0 h1
  · intro h
    subst h
    show fclamp (1 - |Vec3.dot Vec3.worldY Vec3.worldY|) 0 1 ^ 2 = 0
    norm_num [Vec3.dot, Vec3.worldY, fclamp]
  · intro h
    show fclamp (1 - |forward.dot Vec3.worldY|) 0 1 ^ 2 = 1
    rw [h]
    norm_num [fclamp]

/-- Witness for C1 at concrete inputs: straight up gives 0, horizon-level
gives 1. -/
theorem view_angle_factor_formula_witness :
    (advanceSettingsStep 5 ⟨0, 1, 0⟩ RainGlareSettings.default).view_angle_factor = 0
    ∧ (advanceSettingsStep 5 ⟨1, 0, 0⟩ RainGlareSettings.default).view_angle_factor = 1 :=
  ⟨(view_angle_factor_formula 5 ⟨0, 1, 0⟩ RainGlareSettings.default
      (by norm_num [Vec3.isUnit])).2.2.2.1 rfl,
   (view_angle_factor_formula 5 ⟨1, 0, 0⟩ RainGlareSettings.default
      (by norm_num [Vec3.isUnit])).2.2.2.2 (by norm_num [Vec3.dot, Vec3.worldY])⟩

/-- C10: `advance_rain_time` mutates only the `time` and `view_angle_factor`
fields of a processed `RainGlareSettings`, leaving the other ten field slots
unchanged; and it only processes entities matching the `With<Camera3d>` query
filter, so an entity without the marker is left entirely unchanged. -/
theorem advance_mutates_only_derived_fields (t : ℚ) (f : Vec3)
    (s : RainGlareSettings) (es : List CameraEntity) (i : ℕ) (e : CameraEntity) :
    (advanceSettingsStep t f s).intensity = s.intensity
    ∧ (advanceSettingsStep t f s).threshold = s.threshold
    ∧ (advanceSettingsStep t f s).streak_length_px = s.streak_length_px
    ∧ (advanceSettingsStep t f s).rain_density = s.rain_density
    ∧ (advanceSettingsStep t f s).wind = s.wind
    ∧ (advanceSettingsStep t f s).speed = s.speed
    ∧ (advanceSettingsStep t f s).pattern_scale = s.pattern_scale
    ∧ (advanceSettingsStep t f s).mask_thickness_px = s.mask_thickness_px
    ∧ (advanceSettingsStep t f s).snap_to_pixel = s.snap_to_pixel
    ∧ (advanceSettingsStep t f s).tail_quant_steps = s.tail_quant_steps
    ∧ (advance_rain_time t es).length = es.length
    ∧ (es[i]? = some e → e.hasCamera3d = false →
        (advance_rain_time t es)[i]? = some e) := by
  refine ⟨rfl, rfl, rfl, rfl, rfl, rfl, rfl, rfl, rfl, rfl, ?_, ?_⟩
  · simp [advance_rain_time]
  · intro hsome hflag
    simp [advance_rain_time, List.getElem?_map, hsome, hflag]

/-- Witness for C10: an entity without the `Camera3d` marker is returned
unchanged at its position. -/
theorem advance_mutates_only_derived_fields_witness :
    ([(⟨⟨0, 0, -1⟩, RainGlareSettings.default, false⟩ : CameraEntity)][0]?
        = some ⟨⟨0, 0, -1⟩, RainGlareSettings.default, false⟩)
    ∧ (advance_rain_time 7 [⟨⟨0, 0, -1⟩, RainGlareSettings.default, false⟩])[0]?
        = some ⟨⟨0, 0, -1⟩, RainGlareSettings.default, false⟩ :=
  ⟨rfl,
   (advance_mutates_only_derived_fields 7 ⟨0, 0, -1⟩ RainGlareSettings.default
      [⟨⟨0, 0, -1⟩, RainGlareSettings.default, false⟩] 0
      ⟨⟨0, 0, -1⟩, RainGlareSettings.default, false⟩).2.2.2.2.2.2.2.2.2.2.2
      rfl rfl⟩

/-- C4: Each frame, `advance_rain_time` sets `time` to the clock's
elapsed-seconds value; for a fixed camera across consecutive frames the
written `time` values are non-decreasing whenever the host clock's elapsed
time is monotone. -/
theorem advance_time_monotone (elapsed : ℕ → ℚ) (h : Monotone elapsed)
    (forward : Vec3) (s0 : RainGlareSettings) (i j : ℕ) (hij : i ≤ j) :
    (settingsAfterFrames elapsed forward s0 (i + 1)).time = elapsed i
    ∧ (settingsAfterFrames elapsed forward s0 (i + 1)).time
        ≤ (settingsAfterFrames elapsed forward s0 (j + 1)).time := by
  refine ⟨rfl, ?_⟩
  show elapsed i ≤ elapsed j
  exact h hij

/-- Witness for C4 with the identity clock across three frames. -/
theorem advance_time_monotone_witness :
    (settingsAfterFrames (fun n => (n : ℚ)) ⟨0, 0, -1⟩
        RainGlareSettings.default (0 + 1)).time = ((0 : ℕ) : ℚ)
    ∧ (settingsAfterFrames (fun n => (n : ℚ)) ⟨0, 0, -1⟩
        RainGlareSettings.default (0 + 1)).time
      ≤ (settingsAfterFrames (fun n => (n : ℚ)) ⟨0, 0, -1⟩
        RainGlareSettings.default (2 + 1)).time :=
  advance_time_monotone (fun n => (n : ℚ))
    (fun _ _ hab => by simpa using Nat.cast_le.mpr hab) ⟨0, 0, -1⟩
    RainGlareSettings.default 0 2 (by norm_num)

/-- C2: Whenever the view's format has no pipeline-cache entry, or the cached
pipeline is not yet realized, or the frame's uniform storage yields no
binding, `RainGlareNode::run` returns `Ok(())` with no draw, no
`post_process_write`, and no log output. -/
theorem run_skip_paths (w : RenderWorld) (fmt : TextureFormat) (idx : ℕ)
    (h : w.pipeline.pipeline_for_format fmt = none
      ∨ (∃ pid, w.pipeline.pipeline_for_format fmt = some pid
          ∧ lookupId w.realized pid = none)
      ∨ w.uniformBinding = none) :
    (RainGlareNode.run w fmt idx).error = none
    ∧ (RainGlareNode.run w fmt idx).draws = []
    ∧ (RainGlareNode.run w fmt idx).postProcessWritten = false
    ∧ (RainGlareNode.run w fmt idx).logged = [] := by
  rcases h with h | ⟨pid, h1, h2⟩ | h
  · simp [RainGlareNode.run, h, skipOutcome]
  · simp [RainGlareNode.run, h1, h2, skipOutcome]
  · rcases hp : w.pipeline.pipeline_for_format fmt with _ | pid
    · simp [RainGlareNode.run, hp, skipOutcome]
    · rcases hr : lookupId w.realized pid with _ | rp
      · simp [RainGlareNode.run, hp, hr, skipOutcome]
      · simp [RainGlareNode.run, hp, hr, h, skipOutcome]

/-- Witness for C2 on a world with an empty pipeline map. -/
theorem run_skip_paths_witness :
    (RainGlareNode.run ⟨⟨[], []⟩, [], none⟩ TextureFormat.R8Unorm 0).error = none
    ∧ (RainGlareNode.run ⟨⟨[], []⟩, [], none⟩ TextureFormat.R8Unorm 0).draws = []
    ∧ (RainGlareNode.run ⟨⟨[], []⟩, [], none⟩ TextureFormat.R8Unorm 0).postProcessWritten = false
    ∧ (RainGlareNode.run ⟨⟨[], []⟩, [], none⟩ TextureFormat.R8Unorm 0).logged = [] :=
  run_skip_paths ⟨⟨[], []⟩, [], none⟩ TextureFormat.R8Unorm 0 (Or.inl rfl)

/-- C5: Every execution of `RainGlareNode::run` returns `Ok(())` and either
issues no draw at all (some precondition unmet) or exactly one draw of 3
vertices and 1 instance with no vertex buffer (all preconditions met); never
more than one draw. -/
theorem run_skip_or_single_draw (w : RenderWorld) (fmt : TextureFormat)
    (idx : ℕ) :
    (RainGlareNode.run w fmt idx).error = none
    ∧ (RainGlareNode.run w fmt idx).draws.length ≤ 1
    ∧ (drawPreconditionsMet w fmt = true
        ↔ (RainGlareNode.run w fmt idx).draws = [fullscreenDraw]
          ∧ (RainGlareNode.run w fmt idx).postProcessWritten = true)
    ∧ (drawPreconditionsMet w fmt = false
        ↔ (RainGlareNode.run w fmt idx).draws = []
          ∧ (RainGlareNode.run w fmt idx).postProcessWritten = false) := by
  rcases hp : w.pipeline.pipeline_for_format fmt with _ | pid
  · simp [RainGlareNode.run, drawPreconditionsMet, hp, skipOutcome, fullscreenDraw]
  · rcases hr : lookupId w.realized pid with _ | rp
    · simp [RainGlareNode.run, drawPreconditionsMet, hp, hr, skipOutcome, fullscreenDraw]
    · rcases hb : w.uniformBinding with _ | b
      · simp [RainGlareNode.run, drawPreconditionsMet, hp, hr, hb, skipOutcome, fullscreenDraw]
      · simp [RainGlareNode.run, drawPreconditionsMet, hp, hr, hb, skipOutcome]

/-- Unfolding `RainGlarePipeline::from_world`: the pipeline map it builds. -/
theorem from_world_pipelines_eq (c : PipelineCacheState) :
    (RainGlarePipeline.from_world c).1.pipelines
      = [(TextureFormat.bevy_default, c.queued.length),
         (TEXTURE_FORMAT_HDR, c.queued.length + 1)] := by
  simp [RainGlarePipeline.from_world, supportedFormats,
    PipelineCacheState.queue_render_pipeline]

/-- C6: `RainGlarePipeline::from_world` queues exactly one render pipeline per
format of the fixed two-element supported set, its map holds exactly two
entries (one per supported format), and the bind-group layout is the fixed
three-entry layout.  No operation in the plugin mutates the resource
afterwards (`pipeline_for_format` is the only accessor and is read-only). -/
theorem from_world_builds_two_pipelines (c : PipelineCacheState) :
    (RainGlarePipeline.from_world c).1.pipelines
        = [(TextureFormat.bevy_default, c.queued.length),
           (TEXTURE_FORMAT_HDR, c.queued.length + 1)]
    ∧ (RainGlarePipeline.from_world c).1.pipelines.length = 2
    ∧ (RainGlarePipeline.from_world c).2.queued
        = c.queued
          ++ [⟨"rain_glare_pipeline", TextureFormat.bevy_default, none⟩,
              ⟨"rain_glare_pipeline", TEXTURE_FORMAT_HDR, none⟩]
    ∧ (RainGlarePipeline.from_world c).1.layout
        = [BindingLayoutEntry.texture2dFloatFilterable,
           BindingLayoutEntry.samplerFiltering,
           BindingLayoutEntry.uniformBufferDynamic] := by
  refine ⟨from_world_pipelines_eq c, ?_, ?_, rfl⟩
  · rw [from_world_pipelines_eq c]
    rfl
  · simp [RainGlarePipeline.from_world, supportedFormats,
      PipelineCacheState.queue_render_pipeline]

/-- C3: After initialization, `pipeline_for_format` returns `some` pipeline id
for each of the two supported formats and `none` for every other format, and
for an unsupported view format `RainGlareNode::run` issues zero draws. -/
theorem pipeline_for_format_supported_only (c : PipelineCacheState)
    (fmt : TextureFormat) :
    (fmt ∈ supportedFormats →
      (((RainGlarePipeline.from_world c).1.pipeline_for_format fmt).isSome = true))
    ∧ (fmt ∉ supportedFormats →
      (RainGlarePipeline.from_world c).1.pipeline_for_format fmt = none
      ∧ ∀ (realized : List (ℕ × ℕ)) (binding : Option ℕ) (idx : ℕ),
        (RainGlareNode.run ⟨(RainGlarePipeline.from_world c).1, realized, binding⟩
            fmt idx).draws = []) := by
  have hp := from_world_pipelines_eq c
  constructor
  · intro hmem
    have : fmt = TextureFormat.bevy_default ∨ fmt = TEXTURE_FORMAT_HDR := by
      simpa [supportedFormats] using hmem
    rcases this with rfl | rfl <;>
      simp [RainGlarePipeline.pipeline_for_format, hp, lookupFormat,
        TextureFormat.bevy_default, TEXTURE_FORMAT_HDR]
  · intro hmem
    have h0 : ¬(TextureFormat.bevy_default = fmt) := by
      intro h
      exact hmem (by simp [supportedFormats, ← h])
    have h1 : ¬(TEXTURE_FORMAT_HDR = fmt) := by
      intro h
      exact hmem (by simp [supportedFormats, ← h])
    have hnone : (RainGlarePipeline.from_world c).1.pipeline_for_format fmt = none := by
      simp [RainGlarePipeline.pipeline_for_format, hp, lookupFormat, h0, h1]
    exact ⟨hnone, fun realized binding idx => by
      simp [RainGlareNode.run, hnone, skipOutcome]⟩

/-- Witness for C3: the established display format is found, an unsupported
format is not, and an unsupported-format view draws nothing. -/
theorem pipeline_for_format_supported_only_witness :
    (((RainGlarePipeline.from_world ⟨[]⟩).1.pipeline_for_format
        TextureFormat.bevy_default).isSome = true)
    ∧ (RainGlarePipeline.from_world ⟨[]⟩).1.pipeline_for_format
        TextureFormat.R8Unorm = none
    ∧ (RainGlareNode.run ⟨(RainGlarePipeline.from_world ⟨[]⟩).1, [(0, 0), (1, 1)],
        some 0⟩ TextureFormat.R8Unorm 0).draws = [] := by
  have hsub := (pipeline_for_format_supported_only ⟨[]⟩
    TextureFormat.bevy_default).1 (by simp [supportedFormats])
  have hout := (pipeline_for_format_supported_only ⟨[]⟩
    TextureFormat.R8Unorm).2 (by simp [supportedFormats, TextureFormat.bevy_default,
      TEXTURE_FORMAT_HDR])
  exact ⟨hsub, hout.1, hout.2 [(0, 0), (1, 1)] (some 0) 0⟩

/-- Reading a frame snapshot at offset `stride * (k + i)` returns the `i`-th
instance of the suffix assigned from index `k`. -/
theorem readSlot_assignOffsets (stride : ℕ) (hs : 0 < stride) :
    ∀ (l : List RainGlareSettings) (k i : ℕ) (h : i < l.length),
      readSlot (assignOffsets stride k l) (stride * (k + i)) = some (l.get ⟨i, h⟩) := by
  intro l
  induction l with
  | nil => intro k i h; exact absurd h (Nat.not_lt_zero i)
  | cons s rest ih =>
    intro k i h
    cases i with
    | zero => simp [assignOffsets, readSlot]
    | succ i' =>
      have hne : stride * k ≠ stride * (k + (i' + 1)) := by
        have hklt : k < k + (i' + 1) := Nat.lt_add_of_pos_right (Nat.succ_pos i')
        exact (mul_lt_mul_of_pos_left hklt hs).ne
      have hrw : k + (i' + 1) = (k + 1) + i' := by omega
      simp only [assignOffsets, readSlot, if_neg hne]
      rw [hrw, ih (k + 1) i' (Nat.lt_of_succ_lt_succ h)]
      rfl

/-- C7: Distinct instances receive distinct dynamic offsets in the frame
snapshot, reading instance `i`'s slot yields exactly instance `i`'s settings
(never another instance's), and `RainGlareNode::run` binds only the offset of
the view it was invoked for. -/
theorem parameterSync_instance_isolation (stride : ℕ) (hs : 0 < stride)
    (instances : List RainGlareSettings) (i j : ℕ)
    (hi : i < instances.length) (_hj : j < instances.length) :
    (i ≠ j → stride * i ≠ stride * j)
    ∧ readSlot (parameterSync stride instances) (stride * i)
        = some (instances.get ⟨i, hi⟩)
    ∧ ∀ (w : RenderWorld) (fmt : TextureFormat),
        (RainGlareNode.run w fmt (stride * i)).boundDynamicOffsets = []
        ∨ (RainGlareNode.run w fmt (stride * i)).boundDynamicOffsets
            = [[stride * i]] := by
  refine ⟨?_, ?_, ?_⟩
  · intro hne heq
    exact hne (Nat.eq_of_mul_eq_mul_left hs heq)
  · have := readSlot_assignOffsets stride hs instances 0 i hi
    simpa [parameterSync] using this
  · intro w fmt
    rcases hp : w.pipeline.pipeline_for_format fmt with _ | pid
    · exact Or.inl (by simp [RainGlareNode.run, hp, skipOutcome])
    · rcases hr : lookupId w.realized pid with _ | rp
      · exact Or.inl (by simp [RainGlareNode.run, hp, hr, skipOutcome])
      · rcases hb : w.uniformBinding with _ | b
        · exact Or.inl (by simp [RainGlareNode.run, hp, hr, hb, skipOutcome])
        · exact Or.inr (by simp [RainGlareNode.run, hp, hr, hb])

/-- Witness for C7 on a two-camera frame with stride 256: camera 0's slot
reads back camera 0's settings, and a concrete run binds only the given
offset. -/
theorem parameterSync_instance_isolation_witness :
    readSlot (parameterSync 256 [RainGlareSettings.default,
        { RainGlareSettings.default with intensity := 2 }]) (256 * 0)
      = some RainGlareSettings.default
    ∧ (256 * 0 ≠ 256 * 1)
    ∧ ((RainGlareNode.run ⟨⟨[], []⟩, [], none⟩ TextureFormat.Rgba8UnormSrgb
          (256 * 0)).boundDynamicOffsets = []
        ∨ (RainGlareNode.run ⟨⟨[], []⟩, [], none⟩ TextureFormat.Rgba8UnormSrgb
          (256 * 0)).boundDynamicOffsets = [[256 * 0]]) := by
  have h := parameterSync_instance_isolation 256 (by norm_num)
    [RainGlareSettings.default, { RainGlareSettings.default with intensity := 2 }]
    0 1 (by norm_num) (by norm_num)
  exact ⟨h.2.1, h.1 (by norm_num), h.2.2 ⟨⟨[], []⟩, [], none⟩ TextureFormat.Rgba8UnormSrgb⟩

end RainGlare
